import Mathlib

/-!
Verification of the ESP32 NVS provisioning tool (src/main.py).

The program is a small CLI that scaffolds a per-device credential folder,
injects an AES key and a hardware-version row into a CSV key/value store,
invokes an external certificate-blob generator, and flashes the blob over
serial.  The development below is a shallow embedding of that script:

* CSV stores are lists of rows (lists of strings); the csv module's
  reader/writer round-trip is modelled at the row level.
* The filesystem is a map from path strings to optional file data plus a
  set of directories.
* External processes (esptool, cert_gen.py, grep) do not run here; each
  call site takes the process outcome (exit code / captured output) as an
  explicit environment parameter, and the embedding records which command
  line was handed to the subprocess layer.
* Python string operations used by the script (str.split, str.strip,
  substring containment) are re-implemented executably so that concrete
  runs evaluate inside the kernel.
-/

namespace NVSTool

/-- Fuel-driven scanner behind Python str.split: walks the character list,
splitting at every occurrence of the (non-empty) separator. -/
def splitAux (sep : List Char) : Nat → List Char → List Char → List (List Char)
  | 0, acc, s => [acc.reverse ++ s]
  | Nat.succ n, acc, s =>
    if sep.isPrefixOf s then
      acc.reverse :: splitAux sep n [] (s.drop sep.length)
    else
      match s with
      | [] => [acc.reverse]
      | c :: cs => splitAux sep n (c :: acc) cs

/-- Python s.split(sep) for a non-empty separator: splits at every
occurrence, keeping empty fields, and returns the single-element list
with the whole string when the separator never occurs. -/
def pySplit (s sep : String) : List String :=
  if sep = "" then [s]
  else (splitAux sep.toList (s.toList.length + 1) [] s.toList).map (fun cs => String.mk cs)

/-- ASCII whitespace recognised by Python str.strip. -/
def isSpaceChar (c : Char) : Bool := c == ' ' || c == '\t' || c == '\n' || c == '\r'

/-- Python s.strip(): drop leading and trailing whitespace. -/
def pyStrip (s : String) : String :=
  String.mk (((s.toList.dropWhile isSpaceChar).reverse.dropWhile isSpaceChar).reverse)

/-- Python substring test (pat in s) for a non-empty pattern, expressed
through pySplit: the pattern occurs iff splitting yields at least two
fields. -/
def pyContains (s pat : String) : Bool := decide (2 ≤ (pySplit s pat).length)

/-- MAC normalization from main.py: device_mac.strip().split(":") joined
back together, i.e. trim whitespace and delete every colon. -/
def normalize_mac (device_mac : String) : String :=
  String.join (pySplit (pyStrip device_mac) ":")

/-- One CSV row, as produced by csv.reader / consumed by csv.writer. -/
abbrev Row := List String

/-- Contents of a file in the model: a CSV store (row list; an empty file
parses to zero rows) or the opaque binary blob written by the external
generator. -/
inductive FileData where
  | csv (rows : List Row)
  | blob
deriving DecidableEq

/-- Rows stored in a file, as csv.reader would yield them. -/
def readRows : FileData → List Row
  | .csv rows => rows
  | .blob => []

/-- The filesystem: a set of directories and a partial map from paths to
file data. -/
@[ext] structure FS where
  dirs : String → Bool
  files : String → Option FileData

/-- Open a path in mode w (create or truncate) and leave it holding d. -/
def writeFile (fs : FS) (p : String) (d : FileData) : FS :=
  { fs with files := fun q => if q = p then some d else fs.files q }

/-- os.makedirs(d, exist_ok=True): record the directory; never fails when
it already exists. -/
def mkDir (fs : FS) (d : String) : FS :=
  { fs with dirs := fun q => if q = d then true else fs.dirs q }

/-- os.path.join for the two-component joins used throughout main.py. -/
def path_join (a b : String) : String := a ++ "/" ++ b

/-- Per-device directory certs/<mac>. -/
def mac_dir (mac : String) : String := "certs/" ++ mac

/-- Per-device store path certs/<mac>/nvs.csv. -/
def store_path (mac : String) : String := path_join (mac_dir mac) "nvs.csv"

/-- Per-device blob path certs/<mac>/certs.bin. -/
def bin_path (mac : String) : String := path_join (mac_dir mac) "certs.bin"

/-- PYTHON constant from main.py. -/
def PYTHON : String := "python3"

/-- ESP_CMD constant from main.py: the flasher is invoked as a module. -/
def ESP_CMD : List String := [PYTHON, "-m", "esptool"]

/-- files_to_create constant from main.py. -/
def files_to_create : List String := ["device.pem.crt", "private.pem.key", "nvs.csv"]

/-- Outcome of subprocess.run for one invocation, supplied by the
environment: the process ran with a return code and captured streams, or
the executable was missing (FileNotFoundError), or some other exception
was raised. -/
inductive ProcResult where
  | ran (returncode : Int) (stdout : String) (stderr : String)
  | notFound
  | otherError (msg : String)

/-- One print statement executed by execute_command, one constructor per
call site in the source. -/
inductive Msg where
  | noCommand
  | executing (line : String)
  | stdoutDump (s : String)
  | stderrDump (s : String)
  | finished (code : Int)
  | commandNotFound (name : String)
  | unexpected (msg : String)
deriving DecidableEq

/-- Result of execute_command: the returned exit code plus everything it
printed. -/
structure ExecResult where
  exit_code : Int
  messages : List Msg
deriving DecidableEq

/-- execute_command from main.py: empty command lists are rejected with
code 1; otherwise the subprocess outcome decides the result.  A process
that ran has its return code handed back unchanged (stripped streams are
echoed when non-empty); FileNotFoundError and any other exception are
caught, reported with their own message, and turned into code 1. -/
def execute_command (command_list : List String) (proc : ProcResult) (verbose : Bool) : ExecResult :=
  match command_list with
  | [] => { exit_code := 1, messages := [.noCommand] }
  | c :: args =>
    let pre := if verbose then [Msg.executing (String.intercalate " " (c :: args))] else []
    match proc with
    | .ran rc out err =>
      let m1 := if out = "" then [] else [Msg.stdoutDump (pyStrip out)]
      let m2 := if err = "" then [] else [Msg.stderrDump (pyStrip err)]
      let m3 := if verbose then [Msg.finished rc] else []
      { exit_code := rc, messages := pre ++ m1 ++ m2 ++ m3 }
    | .notFound => { exit_code := 1, messages := pre ++ [Msg.commandNotFound c] }
    | .otherError msg => { exit_code := 1, messages := pre ++ [Msg.unexpected msg] }

/-- Result of scanning the existing rows for a key, mirroring the loop
for row in reader: if row[0] == key.  An empty row makes row[0] raise
IndexError (caught by the enclosing broad except, which returns without
appending). -/
inductive PutScan where
  | found
  | indexError
  | absent
deriving DecidableEq

/-- The scan loop shared by put_hardware_version and put_aes_key. -/
def scan_rows (key : String) : List Row → PutScan
  | [] => .absent
  | [] :: _ => .indexError
  | (c :: _) :: rest => if c = key then .found else scan_rows key rest

/-- put_hardware_version from main.py, at the row level: scan for an
existing hv row; if the scan completes without finding one, append the
fixed 4-column row; if the key is found, or the scan raised (empty row),
the caught exception path returns with the store unchanged. -/
def put_hardware_version (version : String) (rows : List Row) : List Row :=
  match scan_rows "hv" rows with
  | .absent => rows ++ [["hv", "data", "string", version]]
  | _ => rows

/-- put_aes_key from main.py, at the row level.  The random key bytes come
from secrets.token_bytes; their hex encoding is passed in here as the
aes_hex parameter of the model. -/
def put_aes_key (aes_hex : String) (rows : List Row) : List Row :=
  match scan_rows "aes_key" rows with
  | .absent => rows ++ [["aes_key", "data", "string", aes_hex]]
  | _ => rows

/-- Command line built by generate_cert_bin for the external generator. -/
def gen_cmd (mac : String) : List String :=
  [PYTHON, "cert_gen.py", "generate", store_path mac, bin_path mac, "16384"]

/-- Command line built by flash_nvs for the external flasher. -/
def flash_cmd (port : String) (bin_file : String) : List String :=
  ESP_CMD ++ ["--port", port, "--baud", "115200", "write_flash", "0x9000", bin_file]

/-- What generate_cert_bin did: the filesystem after the two row
injections, the command handed to execute_command (none when the store
was missing), the returned exit code, and whether the remediation hint
for a missing store was printed. -/
structure GenResult where
  fs : FS
  invoked : Option (List String)
  exit_code : Int
  hinted : Bool

/-- generate_cert_bin from main.py: normalize the MAC, require
certs/<mac>/nvs.csv to exist (otherwise the raised FileNotFoundError is
caught, the suggestion to run the generate step is printed, and 1 is
returned with nothing invoked and nothing written); then inject the AES
key row and the hardware-version row and run the external generator,
returning its exit code.  The generator process outcome is the proc
parameter. -/
def generate_cert_bin (device_mac version aes_hex : String) (fs : FS) (proc : ProcResult) :
    GenResult :=
  let mac := normalize_mac device_mac
  let csv_path := store_path mac
  match fs.files csv_path with
  | none => { fs := fs, invoked := none, exit_code := 1, hinted := true }
  | some fd =>
    let rows2 := put_hardware_version version (put_aes_key aes_hex (readRows fd))
    let cmd := gen_cmd mac
    { fs := writeFile fs csv_path (.csv rows2)
      invoked := some cmd
      exit_code := (execute_command cmd proc true).exit_code
      hinted := false }

/-- What flash_nvs did: the command handed to execute_command (none when
the blob was missing) and the returned exit code. -/
structure FlashResult where
  invoked : Option (List String)
  exit_code : Int

/-- flash_nvs from main.py: require certs/<mac>/certs.bin to exist
(otherwise the raised FileNotFoundError is caught and 1 returned with
nothing invoked); then invoke the external flasher at baud 115200 and
offset 0x9000 and return its exit code. -/
def flash_nvs (device_mac port : String) (fs : FS) (proc : ProcResult) : FlashResult :=
  let mac := normalize_mac device_mac
  let bin_file := bin_path mac
  match fs.files bin_file with
  | none => { invoked := none, exit_code := 1 }
  | some _ =>
    { invoked := some (flash_cmd port bin_file)
      exit_code := (execute_command (flash_cmd port bin_file) proc true).exit_code }

/-- The four fixed rows written into nvs.csv by create_folder_and_files:
header plus the namespace, private-key and certificate descriptor rows,
the latter two referencing the sibling files by path. -/
def scaffold_rows (folder_path : String) : List Row :=
  [["key", "type", "encoding", "value"],
   ["certs", "namespace", "", ""],
   ["priv_key", "file", "string", path_join folder_path "private.pem.key"],
   ["certificate", "file", "string", path_join folder_path "device.pem.crt"]]

/-- create_folder_and_files from main.py: ensure certs/<mac> exists,
truncate-create every listed file, then overwrite the target file with
the header and the three descriptor rows.  The Bool is all_files_created,
which stays true whenever no filesystem exception occurs. -/
def create_folder_and_files (device_mac : String) (file_names : List String)
    (target_file_for_content : Option String) (fs : FS) : FS × Bool :=
  let mac := normalize_mac device_mac
  let folder_path := mac_dir mac
  let fs1 := mkDir fs folder_path
  let fs2 := file_names.foldl (fun acc fn => writeFile acc (path_join folder_path fn) (.csv [])) fs1
  match target_file_for_content with
  | none => (fs2, true)
  | some t =>
      (writeFile fs2 (path_join folder_path t) (.csv (scaffold_rows folder_path)), true)

/-- Line filter applied by the grep MAC: stage of get_mac_address: keep
the lines containing the substring MAC: (no trailing space). -/
def containsMAC (l : String) : Bool := pyContains l "MAC:"

/-- Combined stdout of grep as read by communicate(): the matching lines,
each with its trailing newline. -/
def grepOutput (lines : List String) : String :=
  String.join ((lines.filter containsMAC).map (fun l => l ++ "\n"))

/-- Result of get_mac_address: a normal return (some MAC or None), or an
uncaught exception escaping the function. -/
inductive MacResult where
  | ok (mac : Option String)
  | exn (msg : String)
deriving DecidableEq

/-- get_mac_address from main.py: run the flasher's read_mac subcommand
piped through grep MAC: (the process outcome is supplied as the esptool
return code and its stdout lines).  On a zero return code with non-empty
grep output it evaluates stdout.split(reading the text after the first
occurrence of the marker with a trailing space) and strips it; when that
marker never occurs the index [1] raises an uncaught IndexError.  Empty
grep output or a non-zero return code yield None. -/
def get_mac_address (returncode : Int) (lines : List String) : MacResult :=
  if returncode = 0 then
    let stdout := grepOutput lines
    if stdout = "" then .ok none
    else
      match (pySplit stdout "MAC: ")[1]? with
      | some s => .ok (some (pyStrip s))
      | none => .exn "IndexError"
  else .ok none

/-- Parsed CLI arguments: the three optional string flags and the
generate switch. -/
structure Args where
  port : Option String
  mac : Option String
  hv : Option String
  generate : Bool

/-- Python truthiness of an optional string argument: present and
non-empty. -/
def truthy : Option String → Bool
  | none => false
  | some s => s != ""

/-- The action main ends up performing, one constructor per branch of the
dispatch in main. -/
inductive Action where
  | genFlashExplicit
  | genFlashAuto
  | scaffoldExplicit
  | scaffoldAuto
  | macReadOnly
  | help
deriving DecidableEq

/-- The if/elif dispatch at the end of main, in source order: generate
then flash with an explicit MAC; generate then flash with an auto-read
MAC; scaffold with an explicit MAC; scaffold with an auto-read MAC; bare
MAC read when only a port is usable; otherwise print the help text. -/
def main_dispatch (a : Args) : Action :=
  if truthy a.port && truthy a.mac && truthy a.hv then .genFlashExplicit
  else if truthy a.port && truthy a.hv then .genFlashAuto
  else if a.generate && truthy a.mac then .scaffoldExplicit
  else if a.generate && truthy a.port then .scaffoldAuto
  else if truthy a.port then .macReadOnly
  else .help

/-- Combined outcome of the generate-then-flash workflow. -/
structure GenFlashOutcome where
  gen : GenResult
  flash : Option FlashResult

/-- The generate-then-flash body of main: run generate_cert_bin and, only
when it returned 0, run flash_nvs.  The external generator's effect on
the filesystem (writing certs.bin) happens between the two steps and is
supplied as gen_effect; the two subprocess outcomes are also
environment parameters. -/
def main_gen_flash (mac_arg version port aes_hex : String) (fs : FS)
    (gen_proc : ProcResult) (gen_effect : FS → FS) (flash_proc : ProcResult) :
    GenFlashOutcome :=
  let g := generate_cert_bin mac_arg version aes_hex fs gen_proc
  if g.exit_code = 0 then
    { gen := g, flash := some (flash_nvs mac_arg port (gen_effect g.fs) flash_proc) }
  else
    { gen := g, flash := none }

/-- Filesystem with nothing in it, for concrete runs. -/
def emptyFS : FS := { dirs := fun _ => false, files := fun _ => none }

/-- Filesystem holding a freshly scaffolded store for AA:BB:CC:DD:EE:FF. -/
def demoFS : FS :=
  { dirs := fun _ => false
    files := fun p =>
      if p = store_path "AABBCCDDEEFF" then some (.csv (scaffold_rows (mac_dir "AABBCCDDEEFF")))
      else none }

/-- External-generator effect used in concrete runs: write the blob. -/
def demoGE (g : FS) : FS := writeFile g (bin_path "AABBCCDDEEFF") .blob

/-- Filesystem whose store contains a single malformed (empty) row. -/
def malformedFS : FS :=
  { dirs := fun _ => false
    files := fun p =>
      if p = store_path "AABBCCDDEEFF" then some (.csv [[]]) else none }

/-! Helper lemmas shared across the claim theorems. -/

/-- Appending on the left of a string is cancellative. -/
theorem string_append_left_cancel {a b c : String} (h : a ++ b = a ++ c) : b = c := by
  have h2 := congrArg String.data h
  rw [String.data_append, String.data_append] at h2
  exact String.ext (List.append_cancel_left h2)

/-- Joining distinct final components under the same directory yields
distinct paths. -/
theorem path_join_ne (a : String) {x y : String} (h : x ≠ y) :
    path_join a x ≠ path_join a y :=
  fun hc => h (string_append_left_cancel hc)

/-- The key scan never reports the key absent when some row's first
column equals it. -/
theorem scan_rows_ne_absent {key : String} {rows : List Row}
    (h : ∃ r ∈ rows, r.head? = some key) : scan_rows key rows ≠ PutScan.absent := by
  induction rows with
  | nil => rcases h with ⟨r, hr, _⟩; cases hr
  | cons r rest ih =>
    rcases h with ⟨r', hr', hk⟩
    cases r with
    | nil => simp [scan_rows]
    | cons c cs =>
      rcases List.mem_cons.mp hr' with h1 | h1
      · subst h1
        simp only [List.head?, Option.some.injEq] at hk
        simp [scan_rows, hk]
      · simp only [scan_rows]
        by_cases hc : c = key
        · simp [hc]
        · simpa [hc] using ih ⟨r', h1, hk⟩

/-- The key scan reports the key absent when every row is non-empty and
no row's first column equals it. -/
theorem scan_rows_absent {key : String} {rows : List Row}
    (hne : ∀ r ∈ rows, r ≠ []) (hk : ∀ r ∈ rows, r.head? ≠ some key) :
    scan_rows key rows = PutScan.absent := by
  induction rows with
  | nil => rfl
  | cons r rest ih =>
    cases r with
    | nil => exact absurd rfl (hne [] (List.mem_cons_self _ _))
    | cons c cs =>
      have hck : ¬ c = key := by
        intro hc
        exact hk (c :: cs) (List.mem_cons_self _ _) (by simp [hc])
      simp only [scan_rows, if_neg hck]
      exact ih (fun r hr => hne r (List.mem_cons_of_mem _ hr))
        (fun r hr => hk r (List.mem_cons_of_mem _ hr))

/-- Appending behaviour of put_aes_key when the key is genuinely absent
from a well-formed store. -/
theorem put_aes_key_appends {rows : List Row} (a : String)
    (hne : ∀ r ∈ rows, r ≠ []) (hk : ∀ r ∈ rows, r.head? ≠ some "aes_key") :
    put_aes_key a rows = rows ++ [["aes_key", "data", "string", a]] := by
  simp [put_aes_key, scan_rows_absent hne hk]

/-- Appending behaviour of put_hardware_version when the key is genuinely
absent from a well-formed store. -/
theorem put_hardware_version_appends {rows : List Row} (v : String)
    (hne : ∀ r ∈ rows, r ≠ []) (hk : ∀ r ∈ rows, r.head? ≠ some "hv") :
    put_hardware_version v rows = rows ++ [["hv", "data", "string", v]] := by
  simp [put_hardware_version, scan_rows_absent hne hk]

/-- Normalization of the example MAC used by the spec. -/
theorem norm_mac_example : normalize_mac "AA:BB:CC:DD:EE:FF" = "AABBCCDDEEFF" := by decide

/-! Claim theorems. -/

/-- C3: whenever some existing row's first column already equals the
target key, the corresponding insertion operation leaves the store
completely unchanged (hv case and aes_key case). -/
theorem put_existing_key_noop (rows : List Row) (v a : String) :
    ((∃ r ∈ rows, r.head? = some "hv") → put_hardware_version v rows = rows)
    ∧ ((∃ r ∈ rows, r.head? = some "aes_key") → put_aes_key a rows = rows) := by
  constructor
  · intro h
    have hs := scan_rows_ne_absent h
    unfold put_hardware_version
    cases hsc : scan_rows "hv" rows with
    | found => rfl
    | indexError => rfl
    | absent => exact absurd hsc hs
  · intro h
    have hs := scan_rows_ne_absent h
    unfold put_aes_key
    cases hsc : scan_rows "aes_key" rows with
    | found => rfl
    | indexError => rfl
    | absent => exact absurd hsc hs

/-- Witness for C3: concrete stores already holding the hv key and the
aes_key key are untouched by the respective insertions. -/
theorem put_existing_key_noop_witness :
    put_hardware_version "2.0" [["hv", "data", "string", "1.0"]]
        = [["hv", "data", "string", "1.0"]]
    ∧ put_aes_key "beef" [["aes_key", "data", "string", "00ff"]]
        = [["aes_key", "data", "string", "00ff"]] :=
  ⟨(put_existing_key_noop [["hv", "data", "string", "1.0"]] "2.0" "x").1 (by decide),
   (put_existing_key_noop [["aes_key", "data", "string", "00ff"]] "y" "beef").2 (by decide)⟩

/-- C4 counterexample: in the store consisting of a single empty row, the
target key hv is absent from every row's first column, yet
put_hardware_version appends nothing: the row[0] IndexError is caught
and the store is left unchanged instead of gaining the hv row. -/
theorem put_absent_key_empty_row_counterexample :
    ([] : Row).head? ≠ some "hv"
    ∧ put_hardware_version "1.0" [[]] = [[]]
    ∧ put_hardware_version "1.0" [[]] ≠ [[]] ++ [["hv", "data", "string", "1.0"]] := by
  refine ⟨by decide, rfl, by decide⟩

/-- C4 (amended): for every store all of whose rows are non-empty, if the
target key is absent from every row's first column then the insertion
appends exactly one row with the fixed 4-column schema and leaves all
pre-existing rows unchanged (hv case and aes_key case); a store
containing an empty row is instead left unchanged by the caught
IndexError. -/
theorem put_absent_key_appends (rows : List Row) (v a : String)
    (hne : ∀ r ∈ rows, r ≠ []) :
    ((∀ r ∈ rows, r.head? ≠ some "hv") →
        put_hardware_version v rows = rows ++ [["hv", "data", "string", v]])
    ∧ ((∀ r ∈ rows, r.head? ≠ some "aes_key") →
        put_aes_key a rows = rows ++ [["aes_key", "data", "string", a]]) :=
  ⟨fun hk => put_hardware_version_appends v hne hk,
   fun hk => put_aes_key_appends a hne hk⟩

/-- Witness for C4: on the scaffolded header store, both insertions append
exactly their fixed row. -/
theorem put_absent_key_appends_witness :
    put_hardware_version "1.0" [["key", "type", "encoding", "value"]]
        = [["key", "type", "encoding", "value"], ["hv", "data", "string", "1.0"]]
    ∧ put_aes_key "00ff" [["key", "type", "encoding", "value"]]
        = [["key", "type", "encoding", "value"], ["aes_key", "data", "string", "00ff"]] :=
  ⟨(put_absent_key_appends [["key", "type", "encoding", "value"]] "1.0" "00ff"
      (by decide)).1 (by decide),
   (put_absent_key_appends [["key", "type", "encoding", "value"]] "1.0" "00ff"
      (by decide)).2 (by decide)⟩

/-- C5: when certs/<mac>/nvs.csv does not exist, generate_cert_bin
returns 1, prints the remediation hint suggesting the generate step,
invokes nothing, and leaves the filesystem untouched. -/
theorem generate_cert_bin_missing_store (device_mac version aes_hex : String)
    (fs : FS) (proc : ProcResult)
    (h : fs.files (store_path (normalize_mac device_mac)) = none) :
    generate_cert_bin device_mac version aes_hex fs proc
      = { fs := fs, invoked := none, exit_code := 1, hinted := true } := by
  simp only [generate_cert_bin, h]

/-- Witness for C5: on the empty filesystem the generation step refuses
to proceed. -/
theorem generate_cert_bin_missing_store_witness :
    generate_cert_bin "AA:BB:CC:DD:EE:FF" "1.0" "00" emptyFS (.ran 0 "" "")
      = { fs := emptyFS, invoked := none, exit_code := 1, hinted := true } :=
  generate_cert_bin_missing_store "AA:BB:CC:DD:EE:FF" "1.0" "00" emptyFS (.ran 0 "" "") rfl

/-- C6: when certs/<mac>/certs.bin does not exist, flash_nvs returns 1
and does not invoke the external flasher. -/
theorem flash_nvs_missing_blob (device_mac port : String) (fs : FS) (proc : ProcResult)
    (h : fs.files (bin_path (normalize_mac device_mac)) = none) :
    flash_nvs device_mac port fs proc = { invoked := none, exit_code := 1 } := by
  simp only [flash_nvs, h]

/-- Witness for C6: on the empty filesystem the flash step refuses to
proceed. -/
theorem flash_nvs_missing_blob_witness :
    flash_nvs "AA:BB:CC:DD:EE:FF" "/dev/ttyUSB0" emptyFS (.ran 0 "" "")
      = { invoked := none, exit_code := 1 } :=
  flash_nvs_missing_blob "AA:BB:CC:DD:EE:FF" "/dev/ttyUSB0" emptyFS (.ran 0 "" "") rfl

/-- C10: the row-injection functions catch every exception internally and
return normally, so as soon as the store file exists, generate_cert_bin
always goes on to invoke the external generator and returns its raw exit
code, whatever the store's rows look like (including malformed rows on
which no injection happened). -/
theorem generate_cert_bin_always_invokes (device_mac version aes_hex : String)
    (rows : List Row) (fs : FS) (rc : Int) (out err : String)
    (h : fs.files (store_path (normalize_mac device_mac)) = some (.csv rows)) :
    (generate_cert_bin device_mac version aes_hex fs (.ran rc out err)).invoked
        = some (gen_cmd (normalize_mac device_mac))
    ∧ (generate_cert_bin device_mac version aes_hex fs (.ran rc out err)).exit_code = rc := by
  simp only [generate_cert_bin, h]
  exact ⟨trivial, rfl⟩

/-- Witness for C10: with a store holding only a malformed (empty) row,
neither injection appends anything, yet the generator is still invoked
and its exit code 7 is passed through; the store content is unchanged. -/
theorem generate_cert_bin_always_invokes_witness :
    ((generate_cert_bin "AA:BB:CC:DD:EE:FF" "1.0" "00" malformedFS (.ran 7 "" "")).invoked
        = some (gen_cmd "AABBCCDDEEFF")
      ∧ (generate_cert_bin "AA:BB:CC:DD:EE:FF" "1.0" "00" malformedFS (.ran 7 "" "")).exit_code = 7)
    ∧ (generate_cert_bin "AA:BB:CC:DD:EE:FF" "1.0" "00" malformedFS
        (.ran 7 "" "")).fs.files (store_path "AABBCCDDEEFF") = some (.csv [[]]) := by
  constructor
  · have h := generate_cert_bin_always_invokes "AA:BB:CC:DD:EE:FF" "1.0" "00" [[]]
      malformedFS 7 "" "" (by rw [norm_mac_example]; decide)
    rw [norm_mac_example] at h
    exact h
  · decide

/-- C1 counterexample: with only --port given (no --mac, no --hv, no -g),
the dispatch is not one of the four workflows and does not print the
help text either: main runs the bare MAC read branch. -/
theorem main_dispatch_port_only_counterexample :
    main_dispatch { port := some "/dev/ttyUSB0", mac := none, hv := none, generate := false }
        = Action.macReadOnly
    ∧ Action.macReadOnly ≠ Action.help
    ∧ Action.macReadOnly ≠ Action.genFlashExplicit
    ∧ Action.macReadOnly ≠ Action.genFlashAuto
    ∧ Action.macReadOnly ≠ Action.scaffoldExplicit
    ∧ Action.macReadOnly ≠ Action.scaffoldAuto := by decide

/-- C1 (amended): the dispatch in main selects among five actions, by the
Python truthiness of the flag values: the four workflows exactly as the
claim describes them, plus a bare MAC-read action when --port is given
while --hv is absent and -g is not set (--mac may or may not be given);
only the remaining combinations print the help text. -/
theorem main_dispatch_characterization (a : Args) :
    (main_dispatch a = Action.genFlashExplicit
        ↔ (truthy a.port && truthy a.mac && truthy a.hv) = true)
    ∧ (main_dispatch a = Action.genFlashAuto
        ↔ (truthy a.port && !truthy a.mac && truthy a.hv) = true)
    ∧ (main_dispatch a = Action.scaffoldExplicit
        ↔ (a.generate && truthy a.mac && !(truthy a.port && truthy a.hv)) = true)
    ∧ (main_dispatch a = Action.scaffoldAuto
        ↔ (a.generate && truthy a.port && !truthy a.mac && !truthy a.hv) = true)
    ∧ (main_dispatch a = Action.macReadOnly
        ↔ (truthy a.port && !truthy a.hv && !a.generate) = true)
    ∧ (main_dispatch a = Action.help
        ↔ (!truthy a.port && !(a.generate && truthy a.mac)) = true) := by
  cases hp : truthy a.port <;> cases hm : truthy a.mac <;> cases hh : truthy a.hv <;>
    cases hg : a.generate <;> simp [main_dispatch, hp, hm, hh, hg]

/-- C7: when the subprocess actually runs, execute_command hands back its
raw return code unchanged and never emits the missing-executable report;
when the executable is missing, the caught FileNotFoundError is reported
with its own distinct message naming the command, and code 1 is
returned. -/
theorem execute_command_exit_codes (c : String) (args : List String) (rc : Int)
    (out err : String) (v : Bool) :
    (execute_command (c :: args) (.ran rc out err) v).exit_code = rc
    ∧ (∀ s, Msg.commandNotFound s ∉ (execute_command (c :: args) (.ran rc out err) v).messages)
    ∧ (execute_command (c :: args) .notFound v).exit_code = 1
    ∧ Msg.commandNotFound c ∈ (execute_command (c :: args) .notFound v).messages := by
  refine ⟨rfl, ?_, rfl, ?_⟩
  · intro s
    simp only [execute_command, List.mem_append]
    rintro (((h | h) | h) | h) <;> revert h <;> split <;> simp
  · simp [execute_command]

/-- Second-element lookup of a list with at least two elements. -/
theorem list_getElem1_of_two_le {l : List String} (h : 2 ≤ l.length) :
    l[1]? = some (l.getD 1 "") := by
  cases l with
  | nil => simp at h
  | cons x t =>
    cases t with
    | nil => simp at h
    | cons y r => simp [List.getD]

/-- Second-element lookup of a list with fewer than two elements. -/
theorem list_getElem1_of_lt_two {l : List String} (h : l.length < 2) :
    l[1]? = none := by
  cases l with
  | nil => rfl
  | cons x t =>
    cases t with
    | nil => rfl
    | cons y r =>
      simp only [List.length_cons] at h
      omega

/-- C8 counterexample: with the tool exiting 0 and output line MAC:24ab,
which contains the grep pattern but not the marker with its trailing
space, get_mac_address raises an uncaught IndexError instead of
returning the not-found signal None. -/
theorem get_mac_address_marker_counterexample :
    pyContains (grepOutput ["MAC:24ab"]) "MAC: " = false
    ∧ get_mac_address 0 ["MAC:24ab"] = MacResult.exn "IndexError"
    ∧ get_mac_address 0 ["MAC:24ab"] ≠ MacResult.ok none := by decide

/-- C8 (amended): get_mac_address returns None whenever the tool's
process exits non-zero or no output line contains the substring MAC: (so
the grep stage produces empty output); when the grep output is non-empty
and the full marker (with its trailing space) occurs in it, the function
returns the stripped text following the first marker occurrence; but
when some line matched grep while the full marker is absent, the
function raises an uncaught IndexError instead of returning None. -/
theorem get_mac_address_spec (rc : Int) (lines : List String) :
    (rc ≠ 0 → get_mac_address rc lines = MacResult.ok none)
    ∧ (grepOutput lines = "" → get_mac_address rc lines = MacResult.ok none)
    ∧ (rc = 0 → grepOutput lines ≠ "" → pyContains (grepOutput lines) "MAC: " = true →
        get_mac_address rc lines
          = MacResult.ok (some (pyStrip ((pySplit (grepOutput lines) "MAC: ").getD 1 ""))))
    ∧ (rc = 0 → grepOutput lines ≠ "" → pyContains (grepOutput lines) "MAC: " = false →
        get_mac_address rc lines = MacResult.exn "IndexError") := by
  refine ⟨?_, ?_, ?_, ?_⟩
  · intro h
    simp [get_mac_address, h]
  · intro h
    by_cases hrc : rc = 0
    · simp [get_mac_address, hrc, h]
    · simp [get_mac_address, hrc]
  · intro hrc hne hocc
    simp only [pyContains, decide_eq_true_eq] at hocc
    simp only [get_mac_address, if_pos hrc, if_neg hne, list_getElem1_of_two_le hocc]
  · intro hrc hne hocc
    simp only [pyContains, decide_eq_false_iff_not, not_le] at hocc
    simp only [get_mac_address, if_pos hrc, if_neg hne, list_getElem1_of_lt_two hocc]

/-- Witness for C8: a realistic esptool transcript yields the address
after the marker, stripped. -/
theorem get_mac_address_spec_witness :
    get_mac_address 0 ["esptool.py v4.7", "MAC: 24:0a:c4:12:34:56", "Hard resetting..."]
      = MacResult.ok (some "24:0a:c4:12:34:56") := by
  have h := (get_mac_address_spec 0
      ["esptool.py v4.7", "MAC: 24:0a:c4:12:34:56", "Hard resetting..."]).2.2.1
    rfl (by decide) (by decide)
  rw [h]
  decide

/-- C9: scaffolding with the fixed file list and nvs.csv as the content
target reports success on every starting filesystem — in particular when
the directory or any of the files already exist — ensures the device
directory and the three files exist, leaves nvs.csv holding exactly the
header row plus the three fixed descriptor rows referencing the sibling
paths, and is idempotent: a second run produces the identical
filesystem and result. -/
theorem create_folder_and_files_spec (device_mac : String) (fs : FS) :
    (create_folder_and_files device_mac files_to_create (some "nvs.csv") fs).2 = true
    ∧ (create_folder_and_files device_mac files_to_create (some "nvs.csv") fs).1.dirs
        (mac_dir (normalize_mac device_mac)) = true
    ∧ (create_folder_and_files device_mac files_to_create (some "nvs.csv") fs).1.files
        (path_join (mac_dir (normalize_mac device_mac)) "device.pem.crt")
        = some (.csv [])
    ∧ (create_folder_and_files device_mac files_to_create (some "nvs.csv") fs).1.files
        (path_join (mac_dir (normalize_mac device_mac)) "private.pem.key")
        = some (.csv [])
    ∧ (create_folder_and_files device_mac files_to_create (some "nvs.csv") fs).1.files
        (path_join (mac_dir (normalize_mac device_mac)) "nvs.csv")
        = some (.csv (scaffold_rows (mac_dir (normalize_mac device_mac))))
    ∧ create_folder_and_files device_mac files_to_create (some "nvs.csv")
        (create_folder_and_files device_mac files_to_create (some "nvs.csv") fs).1
      = create_folder_and_files device_mac files_to_create (some "nvs.csv") fs := by
  have h1 := path_join_ne (mac_dir (normalize_mac device_mac))
    (show ("device.pem.crt" : String) ≠ "nvs.csv" by decide)
  have h2 := path_join_ne (mac_dir (normalize_mac device_mac))
    (show ("private.pem.key" : String) ≠ "nvs.csv" by decide)
  have h3 := path_join_ne (mac_dir (normalize_mac device_mac))
    (show ("device.pem.crt" : String) ≠ "private.pem.key" by decide)
  refine ⟨rfl, ?_, ?_, ?_, ?_, ?_⟩
  · simp [create_folder_and_files, files_to_create, List.foldl, writeFile, mkDir]
  · simp [create_folder_and_files, files_to_create, List.foldl, writeFile, mkDir, h1, h3]
  · simp [create_folder_and_files, files_to_create, List.foldl, writeFile, mkDir, h2]
  · simp [create_folder_and_files, files_to_create, List.foldl, writeFile, mkDir]
  · refine Prod.ext ?_ rfl
    apply FS.ext
    · funext q
      simp only [create_folder_and_files, files_to_create, List.foldl, writeFile, mkDir]
      by_cases hq : q = mac_dir (normalize_mac device_mac) <;> simp [hq]
    · funext p
      simp only [create_folder_and_files, files_to_create, List.foldl, writeFile, mkDir]
      by_cases hN : p = path_join (mac_dir (normalize_mac device_mac)) "nvs.csv" <;>
        by_cases hP : p = path_join (mac_dir (normalize_mac device_mac)) "private.pem.key" <;>
          by_cases hC : p = path_join (mac_dir (normalize_mac device_mac)) "device.pem.crt" <;>
            simp [hN, hP, hC]

/-- C2: generate-then-flash for MAC AA:BB:CC:DD:EE:FF and hardware
version 1.0, starting from a well-formed store (every row non-empty and
neither aes_key nor hv present) at certs/AABBCCDDEEFF/nvs.csv, with the
generator process running and the external generator producing the blob
on success: the generator is invoked with the store path, the output
path certs/AABBCCDDEEFF/certs.bin and size 16384; the store gains
exactly the aes_key row and the hv row, appended in that order; and the
flasher is invoked if and only if the generator's exit code is 0. -/
theorem gen_then_flash_example (rows : List Row) (fs : FS)
    (port a out err fout ferr : String) (grc frc : Int) (ge : FS → FS)
    (hstore : fs.files (store_path "AABBCCDDEEFF") = some (.csv rows))
    (hwf : ∀ r ∈ rows, r ≠ [])
    (hna : ∀ r ∈ rows, r.head? ≠ some "aes_key")
    (hnh : ∀ r ∈ rows, r.head? ≠ some "hv")
    (hblob : ∀ g : FS, (ge g).files (bin_path "AABBCCDDEEFF") = some .blob) :
    (main_gen_flash "AA:BB:CC:DD:EE:FF" "1.0" port a fs (.ran grc out err) ge
        (.ran frc fout ferr)).gen.invoked
      = some (gen_cmd "AABBCCDDEEFF")
    ∧ (main_gen_flash "AA:BB:CC:DD:EE:FF" "1.0" port a fs (.ran grc out err) ge
        (.ran frc fout ferr)).gen.fs.files (store_path "AABBCCDDEEFF")
      = some (.csv (rows
          ++ [["aes_key", "data", "string", a], ["hv", "data", "string", "1.0"]]))
    ∧ ((∃ fr, (main_gen_flash "AA:BB:CC:DD:EE:FF" "1.0" port a fs (.ran grc out err) ge
          (.ran frc fout ferr)).flash = some fr
        ∧ fr.invoked = some (flash_cmd port (bin_path "AABBCCDDEEFF"))) ↔ grc = 0) := by
  have haes : put_aes_key a rows = rows ++ [["aes_key", "data", "string", a]] :=
    put_aes_key_appends a hwf hna
  have hhv : put_hardware_version "1.0" (rows ++ [["aes_key", "data", "string", a]])
      = rows ++ [["aes_key", "data", "string", a], ["hv", "data", "string", "1.0"]] := by
    rw [put_hardware_version_appends "1.0"
      (by
        intro r hr
        rcases List.mem_append.mp hr with h | h
        · exact hwf r h
        · simp only [List.mem_singleton] at h
          subst h
          simp)
      (by
        intro r hr
        rcases List.mem_append.mp hr with h | h
        · exact hnh r h
        · simp only [List.mem_singleton] at h
          subst h
          simp)]
    rw [List.append_assoc]
    rfl
  have hgen : generate_cert_bin "AA:BB:CC:DD:EE:FF" "1.0" a fs (.ran grc out err)
      = { fs := writeFile fs (store_path "AABBCCDDEEFF")
            (.csv (rows ++ [["aes_key", "data", "string", a],
                            ["hv", "data", "string", "1.0"]]))
          invoked := some (gen_cmd "AABBCCDDEEFF")
          exit_code := grc
          hinted := false } := by
    simp only [generate_cert_bin, norm_mac_example, hstore, readRows, haes, hhv]
    rfl
  refine ⟨?_, ?_, ?_⟩
  · simp only [main_gen_flash, hgen]
    split <;> rfl
  · simp only [main_gen_flash, hgen]
    split <;> simp [writeFile]
  · simp only [main_gen_flash, hgen]
    by_cases hg : grc = 0
    · rw [if_pos (by exact hg)]
      simp only [hg, iff_true]
      refine ⟨flash_nvs "AA:BB:CC:DD:EE:FF" port
        (ge (writeFile fs (store_path "AABBCCDDEEFF")
          (.csv (rows ++ [["aes_key", "data", "string", a],
                          ["hv", "data", "string", "1.0"]])))) (.ran frc fout ferr), rfl, ?_⟩
      simp only [flash_nvs, norm_mac_example, hblob]
    · rw [if_neg (by exact hg)]
      simp [hg]

/-- Witness for C2: a concrete run from the freshly scaffolded store,
with both subprocesses succeeding and the generator writing the blob. -/
theorem gen_then_flash_example_witness :
    (main_gen_flash "AA:BB:CC:DD:EE:FF" "1.0" "/dev/ttyUSB0" "00112233" demoFS
        (.ran 0 "" "") demoGE (.ran 0 "" "")).gen.invoked
      = some (gen_cmd "AABBCCDDEEFF")
    ∧ (main_gen_flash "AA:BB:CC:DD:EE:FF" "1.0" "/dev/ttyUSB0" "00112233" demoFS
        (.ran 0 "" "") demoGE (.ran 0 "" "")).gen.fs.files (store_path "AABBCCDDEEFF")
      = some (.csv (scaffold_rows (mac_dir "AABBCCDDEEFF")
          ++ [["aes_key", "data", "string", "00112233"],
              ["hv", "data", "string", "1.0"]]))
    ∧ ((∃ fr, (main_gen_flash "AA:BB:CC:DD:EE:FF" "1.0" "/dev/ttyUSB0" "00112233" demoFS
          (.ran 0 "" "") demoGE (.ran 0 "" "")).flash = some fr
        ∧ fr.invoked = some (flash_cmd "/dev/ttyUSB0" (bin_path "AABBCCDDEEFF")))
        ↔ (0 : Int) = 0) :=
  gen_then_flash_example (scaffold_rows (mac_dir "AABBCCDDEEFF")) demoFS
    "/dev/ttyUSB0" "00112233" "" "" "" "" 0 0 demoGE
    (by decide) (by decide) (by decide) (by decide)
    (by intro g; simp [demoGE, writeFile])

end NVSTool
